import Mathlib

/-!
Shallow embedding of `helper.py` from the NANS-project repository: model
evaluation metrics (SSE, R²), residual computation, the five linear-regression
assumption checks, and the model-type dispatcher `check_model_assumptions`.

Numeric values are modelled as rationals (`ℚ`); third-party statistical
routines (Anderson–Darling p-value, Durbin–Watson statistic, Breusch–Pagan
p-value, sklearn's `r2_score`) are opaque parameters collected in `StatsLib`.
Repository functions that are called by `helper.py` but whose definitions are
not part of the file (`independence_of_errors_assumption`,
`equal_variance_assumption`, the ridge/lasso and logistic assumption paths)
are modelled from the specification, as marked in their doc comments.
-/

namespace Helper

/-- A data column: the values of one feature (or the labels), one per row. -/
abbrev Col := List ℚ

/-- A feature matrix, represented as its list of columns (a pandas DataFrame
of numeric columns, addressed positionally). -/
abbrev Matrix := List Col

/-- Number of rows of a feature matrix (length of its first column). -/
def nrows (m : Matrix) : Nat := (m.headD []).length

/-- `sm.add_constant`: prepend a column of ones (the intercept column). -/
def add_constant (m : Matrix) : Matrix := List.replicate (nrows m) 1 :: m

/-- The model types distinguished by `isinstance` checks in `helper.py`. -/
inductive ModelKind
  | linearRegression
  | regressionResultsWrapper
  | ridge
  | lasso
  | logisticRegression
  | other
  deriving DecidableEq, Repr

/-- A fitted model: its runtime type tag, whether it exposes a `predict`
attribute, its prediction function (one prediction per row), and — meaningful
for the statsmodels OLS wrapper only — the overall F-test p-value. -/
structure Model where
  kind : ModelKind
  hasPredict : Bool
  predict : Matrix → List ℚ
  f_pvalue : ℚ

/-- Opaque third-party statistical routines, plus the repository functions
whose bodies are not in `helper.py`.

`normal_ad_pvalue`: the p-value returned by `statsmodels` `normal_ad`.
`durbin_watson`: the Durbin–Watson statistic on residuals.
`bp_pvalue`: the homoscedasticity-test p-value on residuals vs predictions.
`r2_score`: sklearn's `r2_score(labels, predictions)`. -/
structure StatsLib where
  normal_ad_pvalue : List ℚ → ℚ
  durbin_watson : List ℚ → ℚ
  bp_pvalue : List ℚ → List ℚ → ℚ
  r2_score : List ℚ → List ℚ → ℚ

/-- The features actually passed to `predict` by `get_sse` / `get_rsquared`:
the intercept column is added for the statsmodels OLS wrapper only. -/
def prediction_features (model : Model) (features : Matrix) : Matrix :=
  if model.kind = ModelKind.regressionResultsWrapper then
    add_constant features
  else features

/-- `get_sse`: if the model has a `predict` attribute, add the intercept
column for an OLS wrapper, predict, and return the sum of squared errors;
otherwise raise "Unsupported model type for SSE calculation.". -/
def get_sse (model : Model) (features : Matrix) (labels : List ℚ) :
    Except String ℚ :=
  if model.hasPredict then
    let y_pred := model.predict (prediction_features model features)
    Except.ok (List.zipWith (fun l p => (l - p) ^ 2) labels y_pred).sum
  else
    Except.error ("Unsupported model type for SSE calculation.")

/-- `get_rsquared`: if the model has a `predict` attribute, add the intercept
column for an OLS wrapper, predict, and return `r2_score(labels, y_pred)`;
otherwise raise "Unsupported model type for R² calculation.". -/
def get_rsquared (lib : StatsLib) (model : Model) (features : Matrix)
    (labels : List ℚ) : Except String ℚ :=
  if model.hasPredict then
    let y_pred := model.predict (prediction_features model features)
    Except.ok (lib.r2_score labels y_pred)
  else
    Except.error ("Unsupported model type for R² calculation.")

/-- One row of the DataFrame built by `calculate_residuals`. -/
structure ResidualRecord where
  actual : ℚ
  predicted : ℚ
  residuals : ℚ
  deriving DecidableEq, Repr

/-- `calculate_residuals`: predict, then tabulate per row the actual value,
the predicted value, and `abs(Actual) - abs(Predicted)`. -/
def calculate_residuals (model : Model) (features : Matrix)
    (labels : List ℚ) : List ResidualRecord :=
  let y_pred := model.predict features
  List.zipWith (fun a p => ⟨a, p, |a| - |p|⟩) labels y_pred

/-- The `Residuals` column of `calculate_residuals`. -/
def residualsOf (model : Model) (features : Matrix) (labels : List ℚ) :
    List ℚ :=
  (calculate_residuals model features labels).map ResidualRecord.residuals

/-- The `Predicted` column of `calculate_residuals`. -/
def predictedOf (model : Model) (features : Matrix) (labels : List ℚ) :
    List ℚ :=
  (calculate_residuals model features labels).map ResidualRecord.predicted

/-- `linear_assumption` (plotting suppressed): for the statsmodels OLS
wrapper, report linearity found iff the overall F-test p-value is below the
threshold, together with that p-value; for every other model type report
linearity found with no p-value. -/
def linear_assumption (model : Model) (features : Matrix) (labels : List ℚ)
    (p_value_thresh : ℚ) : Bool × Option ℚ :=
  let _df_results := calculate_residuals model features labels
  if model.kind = ModelKind.regressionResultsWrapper then
    (decide (model.f_pvalue < p_value_thresh), some model.f_pvalue)
  else
    (true, none)

/-- `normality_of_errors_assumption` (plotting suppressed): Anderson–Darling
p-value on the residuals, classified "normal" when the p-value is at least
the threshold and "non-normal" otherwise. -/
def normality_of_errors_assumption (lib : StatsLib) (model : Model)
    (features : Matrix) (label : List ℚ) (p_value_thresh : ℚ) :
    String × ℚ :=
  let p_value := lib.normal_ad_pvalue (residualsOf model features label)
  (if p_value ≥ p_value_thresh then ("normal") else ("non-normal"), p_value)

/-- Modelled from the spec: `independence_of_errors_assumption` is called by
`are_assumptions_satisfied_linear` but its body is not in `helper.py`.  Per
the spec it computes a Durbin–Watson-style autocorrelation statistic on the
residuals and fails (returns a non-`none` autocorrelation tag) exactly when
the statistic falls outside the acceptable band 1.5–2.5. -/
def independence_of_errors_assumption (lib : StatsLib) (model : Model)
    (features : Matrix) (labels : List ℚ) : Option String × ℚ :=
  let dw_value := lib.durbin_watson (residualsOf model features labels)
  if dw_value < 3 / 2 then (some ("positive autocorrelation"), dw_value)
  else if dw_value > 5 / 2 then (some ("negative autocorrelation"), dw_value)
  else (none, dw_value)

/-- Modelled from the spec: `equal_variance_assumption` is called by
`are_assumptions_satisfied_linear` but its body is not in `helper.py`.  Per
the spec it runs a Breusch–Pagan-style test on residuals vs predictions and
classifies the variance "equal" when the p-value is at least the threshold,
"unequal" otherwise. -/
def equal_variance_assumption (lib : StatsLib) (model : Model)
    (features : Matrix) (labels : List ℚ) (p_value_thresh : ℚ) :
    String × ℚ :=
  let p_value := lib.bp_pvalue (residualsOf model features labels)
    (predictedOf model features labels)
  (if p_value ≥ p_value_thresh then ("equal") else ("unequal"), p_value)

/-- Mean of a column (pandas convention: empty column has mean 0 here;
it is only ever used through `centered`). -/
def mean (l : List ℚ) : ℚ := l.sum / l.length

/-- A column with its mean subtracted from every entry. -/
def centered (l : List ℚ) : List ℚ := l.map (fun x => x - mean l)

/-- Un-normalised covariance of two columns: the dot product of the centered
columns.  The normalisation by `n - 1` cancels in the correlation. -/
def covList (x y : List ℚ) : ℚ :=
  (List.zipWith (fun a b => a * b) (centered x) (centered y)).sum

/-- Un-normalised variance of a column. -/
def varList (x : List ℚ) : ℚ := covList x x

/-- Exact-arithmetic rendering of the pandas comparison `corr(x, y) > t` for
a positive threshold `t`: the correlation is defined (neither column has zero
variance, otherwise the entry is NaN and every comparison is false), the
covariance is positive, and its square exceeds `t² · var x · var y`. -/
def corr_gt (x y : List ℚ) (t : ℚ) : Bool :=
  decide (varList x ≠ 0) && decide (varList y ≠ 0) &&
    decide (0 < covList x y) &&
    decide (t ^ 2 * (varList x * varList y) < covList x y ^ 2)

/-- Exact-arithmetic rendering of the pandas comparison `corr(x, y) < -t` for
a positive threshold `t`. -/
def corr_lt_neg (x y : List ℚ) (t : ℚ) : Bool :=
  decide (varList x ≠ 0) && decide (varList y ≠ 0) &&
    decide (covList x y < 0) &&
    decide (t ^ 2 * (varList x * varList y) < covList x y ^ 2)

/-- `perfect_collinearity_assumption` (plotting suppressed): compute the
pairwise Pearson correlation matrix of the feature columns, overwrite the
diagonal with NaN, and report collinearity iff some entry is `> 0.999` or
`< -0.999` (NaN entries — the diagonal and pairs involving a zero-variance
column — compare false). -/
def perfect_collinearity_assumption (features : Matrix) : Bool :=
  let n := features.length
  (List.range n).any fun i =>
    (List.range n).any fun j =>
      decide (i ≠ j) &&
        (corr_gt (features.getD i []) (features.getD j []) (999 / 1000) ||
          corr_lt_neg (features.getD i []) (features.getD j []) (999 / 1000))

/-- The value returned by an assumption-checking entry point: Python's `True`
or a human-readable failure-reason string. -/
inductive CheckResult
  | satisfied
  | failure (reason : String)
  deriving DecidableEq, Repr

/-- `are_assumptions_satisfied_linear`: run all five checks (with plotting
off) on the intercept-augmented features — except collinearity, which gets
the raw features — then return the reason string of the first failing check
in the order linearity, independence, normality, equal variance,
collinearity, or `True` when every check passes. -/
def are_assumptions_satisfied_linear (lib : StatsLib) (model : Model)
    (features : Matrix) (labels : List ℚ) (p_value_thresh : ℚ) :
    CheckResult :=
  let x_with_const := add_constant features
  let is_linearity_found :=
    (linear_assumption model x_with_const labels p_value_thresh).1
  let autocorrelation :=
    (independence_of_errors_assumption lib model x_with_const labels).1
  let n_dist_type :=
    (normality_of_errors_assumption lib model x_with_const labels
      p_value_thresh).1
  let e_dist_type :=
    (equal_variance_assumption lib model x_with_const labels
      p_value_thresh).1
  let has_perfect_collinearity := perfect_collinearity_assumption features
  if !is_linearity_found then
    CheckResult.failure ("Linearity assumption is not satisfied.")
  else if autocorrelation.isSome then
    CheckResult.failure
      ("Independence of errors (no autocorrelation) assumption is not satisfied.")
  else if n_dist_type ≠ "normal" then
    CheckResult.failure
      (("Normality of errors assumption is not satisfied. Distribution type: ")
        ++ n_dist_type)
  else if e_dist_type ≠ "equal" then
    CheckResult.failure
      (("Equal variance (homoscedasticity) assumption is not satisfied. Distribution type: ")
        ++ e_dist_type)
  else if has_perfect_collinearity then
    CheckResult.failure ("Perfect collinearity assumption is not satisfied.")
  else
    CheckResult.satisfied

/-- Modelled from the spec: `are_assumptions_satisfied_ridge_lasso` is called
by `check_model_assumptions` but not defined in `helper.py`; the spec only
says ridge/lasso models route to this separately defined path, so it is kept
opaque. -/
structure RepoLib where
  are_assumptions_satisfied_ridge_lasso :
    Model → Matrix → List ℚ → ℚ → CheckResult
  are_assumptions_satisfied_logistic :
    Model → Matrix → List ℚ → ℚ → CheckResult

/-- `check_model_assumptions`: dispatch on the model's runtime type —
LinearRegression / OLS wrapper to the linear path, Ridge / Lasso to the
ridge-lasso path, LogisticRegression to the logistic path, anything else to
the string "Model type not supported for assumption checks.". -/
def check_model_assumptions (lib : StatsLib) (repo : RepoLib) (model : Model)
    (features : Matrix) (labels : List ℚ) (p_value_thresh : ℚ) :
    CheckResult :=
  if model.kind = ModelKind.linearRegression ∨
      model.kind = ModelKind.regressionResultsWrapper then
    are_assumptions_satisfied_linear lib model features labels p_value_thresh
  else if model.kind = ModelKind.ridge ∨ model.kind = ModelKind.lasso then
    repo.are_assumptions_satisfied_ridge_lasso model features labels
      p_value_thresh
  else if model.kind = ModelKind.logisticRegression then
    repo.are_assumptions_satisfied_logistic model features labels
      p_value_thresh
  else
    CheckResult.failure ("Model type not supported for assumption checks.")

/-- The four code paths of `check_model_assumptions`. -/
inductive Route
  | linear
  | ridgeLasso
  | logistic
  | unsupported
  deriving DecidableEq, Repr

/-- Which branch of `check_model_assumptions`'s `isinstance` chain a model is
routed to. -/
def dispatch_route (model : Model) : Route :=
  if model.kind = ModelKind.linearRegression ∨
      model.kind = ModelKind.regressionResultsWrapper then
    Route.linear
  else if model.kind = ModelKind.ridge ∨ model.kind = ModelKind.lasso then
    Route.ridgeLasso
  else if model.kind = ModelKind.logisticRegression then
    Route.logistic
  else
    Route.unsupported

/-- A DataFrame whose cells may be missing (`none` models pandas `NaN`),
given as named columns. -/
structure DataFrame where
  cols : List (String × List (Option ℚ))

/-- `len(df)`: the row count (length of the first column). -/
def DataFrame.len (df : DataFrame) : Nat :=
  ((df.cols.headD ("", [])).2).length

/-- `df[col].isna().sum()`: the number of missing cells in one column. -/
def missingCount (c : List (Option ℚ)) : Nat :=
  (c.filter Option.isNone).length

/-- `check_for_missing_values`: keep the columns whose missing-cell count is
non-zero, each with its count and the percentage `count / len(df) * 100`. -/
def check_for_missing_values (df : DataFrame) :
    List (String × Nat × ℚ) :=
  df.cols.filterMap fun c =>
    let cnt := missingCount c.2
    if cnt ≠ 0 then
      some (c.1, cnt, (cnt : ℚ) / df.len * 100)
    else
      none

/-! ### Concrete instances used to evaluate the definitions -/

/-- A model of the given runtime type whose predictions are empty. -/
def mkModel (k : ModelKind) : Model := ⟨k, true, fun _ => [], 1⟩

/-- A plain `LinearRegression`-typed model that always predicts `[1, 2, 4]`. -/
def exModel124 : Model := ⟨ModelKind.linearRegression, true, fun _ => [1, 2, 4], 1⟩

/-- A model without a `predict` attribute. -/
def noPredictModel : Model := ⟨ModelKind.other, false, fun _ => [], 1⟩

/-- A statistics library under which every p-value-based check passes and the
Durbin–Watson statistic sits in the acceptable band. -/
def passLib : StatsLib := ⟨fun _ => 1, fun _ => 2, fun _ _ => 1, fun _ _ => 1⟩

/-- A statistics library whose Anderson–Darling p-value is always `0`, so the
normality check fails, while every other check passes. -/
def failADLib : StatsLib := ⟨fun _ => 0, fun _ => 2, fun _ _ => 1, fun _ _ => 1⟩

/-- Trivial implementations for the assumption paths not shown in the file. -/
def exRepo : RepoLib :=
  ⟨fun _ _ _ _ => CheckResult.satisfied, fun _ _ _ _ => CheckResult.satisfied⟩

/-! ### Helper lemmas -/

theorem sum_zipWith_sq (l p : List ℚ) (h : l.length = p.length) :
    (List.zipWith (fun a b => (a - b) ^ 2) l p).sum =
      ∑ i ∈ Finset.range l.length, (l.getD i 0 - p.getD i 0) ^ 2 := by
  induction l generalizing p with
  | nil => simp
  | cons a l ih =>
    cases p with
    | nil => simp at h
    | cons b p =>
      simp only [List.zipWith_cons_cons, List.sum_cons, List.length_cons]
      rw [Finset.sum_range_succ']
      simp only [List.getD_cons_succ, List.getD_cons_zero]
      rw [ih p (by simpa using h)]
      ring

theorem get_zipWith_eq {α β γ : Type} (f : α → β → γ) (da : α) (db : β) :
    ∀ (l : List α) (p : List β) (i : Nat)
      (h : i < (List.zipWith f l p).length),
      (List.zipWith f l p).get ⟨i, h⟩ = f (l.getD i da) (p.getD i db) := by
  intro l
  induction l with
  | nil => intro p i h; simp at h
  | cons a l ih =>
    intro p i h
    cases p with
    | nil => simp at h
    | cons b p =>
      cases i with
      | zero => rfl
      | succ n =>
        have h2 : n < (List.zipWith f l p).length := by
          simp only [List.length_zipWith, List.length_cons, lt_min_iff] at h ⊢
          omega
        simpa [List.getD_cons_succ] using ih p n h2

/-! ### Claim theorems -/

/-- Claim C3: for every model with a predict capability (and predictions
aligned with the labels), `get_sse` returns exactly the sum over all rows of
the squared difference between label and prediction. -/
theorem get_sse_spec (model : Model) (features : Matrix) (labels : List ℚ)
    (hp : model.hasPredict = true)
    (hl : labels.length =
      (model.predict (prediction_features model features)).length) :
    get_sse model features labels =
      Except.ok (∑ i ∈ Finset.range labels.length,
        (labels.getD i 0 -
          (model.predict (prediction_features model features)).getD i 0) ^ 2)
    := by
  rw [get_sse, hp]
  simp only [if_true]
  rw [sum_zipWith_sq _ _ hl]

/-- Claim C3 witness: for labels `[1, 2, 3]` and predictions `[1, 2, 4]` the
sum of squared errors is `1`. -/
theorem get_sse_spec_witness : get_sse exModel124 [] [1, 2, 3] = Except.ok 1
    := by
  rw [get_sse_spec exModel124 [] [1, 2, 3] rfl rfl]
  norm_num [Finset.sum_range_succ, exModel124]

/-- Claim C4: `calculate_residuals` returns one record per row (when the
predictions align with the labels), and each record holds the actual label,
the predicted value, and the residual `|actual| - |predicted|`.  The function
is pure, so the result is recomputed from its arguments on every call. -/
theorem calculate_residuals_spec (model : Model) (features : Matrix)
    (labels : List ℚ) :
    (labels.length = (model.predict features).length →
      (calculate_residuals model features labels).length = labels.length) ∧
    ∀ i (h : i < (calculate_residuals model features labels).length),
      (calculate_residuals model features labels).get ⟨i, h⟩ =
        ⟨labels.getD i 0, (model.predict features).getD i 0,
          |labels.getD i 0| - |(model.predict features).getD i 0|⟩ := by
  constructor
  · intro h
    simp [calculate_residuals, h]
  · intro i h
    exact get_zipWith_eq _ 0 0 labels (model.predict features) i h

/-- Claim C4 witness: the third residual record for labels `[1, 2, 3]` and
predictions `[1, 2, 4]` is `(3, 4, |3| - |4| = -1)`. -/
theorem calculate_residuals_spec_witness :
    (calculate_residuals exModel124 [] [1, 2, 3]).get ⟨2, by decide⟩ =
      ⟨3, 4, -1⟩ := by
  rw [(calculate_residuals_spec exModel124 [] [1, 2, 3]).2 2 (by decide)]
  norm_num [exModel124]

/-- Claim C5: `linear_assumption` on an OLS wrapper reports failure exactly
when the F-test p-value is at least the threshold, returning that p-value;
on every other model type it reports the assumption satisfied with no
p-value. -/
theorem linear_assumption_spec (model : Model) (features : Matrix)
    (labels : List ℚ) (p_value_thresh : ℚ) :
    (model.kind = ModelKind.regressionResultsWrapper →
      linear_assumption model features labels p_value_thresh =
        (decide (model.f_pvalue < p_value_thresh), some model.f_pvalue) ∧
      ((linear_assumption model features labels p_value_thresh).1 = false ↔
        p_value_thresh ≤ model.f_pvalue)) ∧
    (model.kind ≠ ModelKind.regressionResultsWrapper →
      linear_assumption model features labels p_value_thresh = (true, none))
    := by
  constructor
  · intro h
    constructor
    · simp [linear_assumption, h]
    · simp [linear_assumption, h, not_lt]
  · intro h
    simp [linear_assumption, h]

/-- Claim C5 witness: an OLS wrapper with F-test p-value `1` fails the check
at threshold `1/20` (reporting p-value `1`), and a plain regressor always
passes with no p-value. -/
theorem linear_assumption_spec_witness :
    linear_assumption (mkModel ModelKind.regressionResultsWrapper) [] []
        (1 / 20) = (false, some 1) ∧
    linear_assumption exModel124 [] [] (1 / 20) = (true, none) := by
  constructor
  · rw [((linear_assumption_spec (mkModel ModelKind.regressionResultsWrapper)
      [] [] (1 / 20)).1 rfl).1]
    norm_num [mkModel]
  · exact (linear_assumption_spec exModel124 [] [] (1 / 20)).2 (by decide)

/-- Claim C8: `get_sse` and `get_rsquared` signal the "unsupported model
type" error exactly when the model lacks a predict capability; with a predict
capability they return a numeric result. -/
theorem metrics_unsupported_spec (lib : StatsLib) (model : Model)
    (features : Matrix) (labels : List ℚ) :
    (model.hasPredict = false →
      get_sse model features labels =
          Except.error ("Unsupported model type for SSE calculation.") ∧
      get_rsquared lib model features labels =
          Except.error ("Unsupported model type for R² calculation.")) ∧
    (model.hasPredict = true →
      (∃ v, get_sse model features labels = Except.ok v) ∧
      ∃ v, get_rsquared lib model features labels = Except.ok v) := by
  constructor
  · intro h
    simp [get_sse, get_rsquared, h]
  · intro h
    simp [get_sse, get_rsquared, h]

/-- Claim C8 witness: a model without `predict` yields the SSE error, while
a model with `predict` yields a numeric SSE. -/
theorem metrics_unsupported_spec_witness :
    get_sse noPredictModel [] [] =
        Except.error ("Unsupported model type for SSE calculation.") ∧
    ∃ v, get_sse exModel124 [] [] = Except.ok v :=
  ⟨((metrics_unsupported_spec passLib noPredictModel [] []).1 rfl).1,
   ((metrics_unsupported_spec passLib exModel124 [] []).2 rfl).1⟩

/-- Claim C9: for every model whose runtime type is none of the five
supported ones, `check_model_assumptions` returns the descriptive string
"Model type not supported for assumption checks." as its value (the function
is total: no exception path exists). -/
theorem check_model_assumptions_unsupported_spec (lib : StatsLib)
    (repo : RepoLib) (model : Model) (features : Matrix) (labels : List ℚ)
    (p_value_thresh : ℚ)
    (h1 : model.kind ≠ ModelKind.linearRegression)
    (h2 : model.kind ≠ ModelKind.regressionResultsWrapper)
    (h3 : model.kind ≠ ModelKind.ridge)
    (h4 : model.kind ≠ ModelKind.lasso)
    (h5 : model.kind ≠ ModelKind.logisticRegression) :
    check_model_assumptions lib repo model features labels p_value_thresh =
      CheckResult.failure ("Model type not supported for assumption checks.")
    := by
  simp [check_model_assumptions, h1, h2, h3, h4, h5]

/-- Claim C9 witness: a model of unrecognised type gets the unsupported
string. -/
theorem check_model_assumptions_unsupported_spec_witness :
    check_model_assumptions passLib exRepo (mkModel ModelKind.other) [] []
        (1 / 20) =
      CheckResult.failure ("Model type not supported for assumption checks.")
    :=
  check_model_assumptions_unsupported_spec passLib exRepo
    (mkModel ModelKind.other) [] [] (1 / 20) (by decide) (by decide)
    (by decide) (by decide) (by decide)

/-- Claim C2 counterexample: Ridge-typed and Lasso-typed models are routed to
the same code path of `check_model_assumptions`, so the four model types
reach only three distinct paths — the four routes are not pairwise
distinct. -/
theorem dispatch_route_four_distinct_false :
    dispatch_route (mkModel ModelKind.ridge) =
      dispatch_route (mkModel ModelKind.lasso) ∧
    ¬ ([dispatch_route (mkModel ModelKind.ridge),
        dispatch_route (mkModel ModelKind.lasso),
        dispatch_route (mkModel ModelKind.linearRegression),
        dispatch_route (mkModel ModelKind.logisticRegression)].Pairwise
          (fun a b => a ≠ b)) := by
  constructor
  · rfl
  · intro hp
    exact (List.pairwise_cons.mp hp).1 (dispatch_route (mkModel ModelKind.lasso))
      (by simp) rfl

/-- Claim C2 (amended): the four model types are routed to three distinct
code paths — the plain-OLS model to the linear path, the Ridge and Lasso
models both to the ridge/lasso path, and the Logistic model to the logistic
path — and `check_model_assumptions` invokes the corresponding assumption
function on each. -/
theorem check_model_assumptions_routes (lib : StatsLib) (repo : RepoLib)
    (mR mL mO mG : Model) (features : Matrix) (labels : List ℚ)
    (p_value_thresh : ℚ)
    (hR : mR.kind = ModelKind.ridge) (hL : mL.kind = ModelKind.lasso)
    (hO : mO.kind = ModelKind.linearRegression)
    (hG : mG.kind = ModelKind.logisticRegression) :
    dispatch_route mO = Route.linear ∧
    dispatch_route mR = Route.ridgeLasso ∧
    dispatch_route mL = Route.ridgeLasso ∧
    dispatch_route mG = Route.logistic ∧
    Route.linear ≠ Route.ridgeLasso ∧
    Route.ridgeLasso ≠ Route.logistic ∧
    Route.linear ≠ Route.logistic ∧
    check_model_assumptions lib repo mO features labels p_value_thresh =
      are_assumptions_satisfied_linear lib mO features labels p_value_thresh ∧
    check_model_assumptions lib repo mR features labels p_value_thresh =
      repo.are_assumptions_satisfied_ridge_lasso mR features labels
        p_value_thresh ∧
    check_model_assumptions lib repo mL features labels p_value_thresh =
      repo.are_assumptions_satisfied_ridge_lasso mL features labels
        p_value_thresh ∧
    check_model_assumptions lib repo mG features labels p_value_thresh =
      repo.are_assumptions_satisfied_logistic mG features labels
        p_value_thresh := by
  refine ⟨?_, ?_, ?_, ?_, ?_, ?_, ?_, ?_, ?_, ?_, ?_⟩ <;>
    simp [dispatch_route, check_model_assumptions, hR, hL, hO, hG]

/-- Claim C2 witness: the routing facts at concrete models of each type. -/
theorem check_model_assumptions_routes_witness :
    dispatch_route (mkModel ModelKind.linearRegression) = Route.linear ∧
    dispatch_route (mkModel ModelKind.logisticRegression) = Route.logistic :=
  ⟨(check_model_assumptions_routes passLib exRepo (mkModel ModelKind.ridge)
      (mkModel ModelKind.lasso) (mkModel ModelKind.linearRegression)
      (mkModel ModelKind.logisticRegression) [] [] (1 / 20)
      rfl rfl rfl rfl).1,
   (check_model_assumptions_routes passLib exRepo (mkModel ModelKind.ridge)
      (mkModel ModelKind.lasso) (mkModel ModelKind.linearRegression)
      (mkModel ModelKind.logisticRegression) [] [] (1 / 20)
      rfl rfl rfl rfl).2.2.2.1⟩

theorem filterMap_missing (n : ℚ) (cs : List (String × List (Option ℚ))) :
    (cs.filterMap fun c =>
      if missingCount c.2 ≠ 0 then
        some (c.1, missingCount c.2, (missingCount c.2 : ℚ) / n * 100)
      else none) =
    (cs.filter fun c => decide (0 < missingCount c.2)).map
      (fun c => (c.1, missingCount c.2, 100 * (missingCount c.2 : ℚ) / n))
    := by
  induction cs with
  | nil => rfl
  | cons c cs ih =>
    by_cases h : missingCount c.2 = 0
    · simp only [List.filterMap_cons, List.filter_cons, h]
      simpa using ih
    · have hpos : 0 < missingCount c.2 := Nat.pos_of_ne_zero h
      have h1 : (if missingCount c.2 ≠ 0 then
          some (c.1, missingCount c.2, (missingCount c.2 : ℚ) / n * 100)
        else none) =
          some (c.1, missingCount c.2, (missingCount c.2 : ℚ) / n * 100) :=
        if_pos h
      have h3 : (missingCount c.2 : ℚ) / n * 100 =
          100 * (missingCount c.2 : ℚ) / n := by ring
      simp only [List.filterMap_cons, List.filter_cons, h1,
        decide_eq_true hpos, if_pos, List.map_cons, ih, h3]
      rw [if_pos h]

/-- Claim C10: `check_for_missing_values` returns exactly the columns with a
non-zero missing count, each with the count and the percentage
`100 · count / rows`; a DataFrame with no missing value yields the empty
table. -/
theorem check_for_missing_values_spec (df : DataFrame) :
    check_for_missing_values df =
      (df.cols.filter fun c => decide (0 < missingCount c.2)).map
        (fun c => (c.1, missingCount c.2,
          100 * (missingCount c.2 : ℚ) / (df.len : ℚ))) ∧
    ((∀ c ∈ df.cols, missingCount c.2 = 0) →
      check_for_missing_values df = []) := by
  have h1 : check_for_missing_values df =
      (df.cols.filter fun c => decide (0 < missingCount c.2)).map
        (fun c => (c.1, missingCount c.2,
          100 * (missingCount c.2 : ℚ) / (df.len : ℚ))) := by
    rw [check_for_missing_values]
    exact filterMap_missing _ df.cols
  refine ⟨h1, fun h => ?_⟩
  rw [h1]
  have h2 : (df.cols.filter fun c => decide (0 < missingCount c.2)) = [] := by
    rw [List.filter_eq_nil_iff]
    intro c hc
    simp [h c hc]
  rw [h2]
  rfl

/-- Claim C10 witness: a DataFrame with no missing value yields the empty
table. -/
theorem check_for_missing_values_spec_witness :
    check_for_missing_values ⟨[("a", [some 1, some 2])]⟩ = [] :=
  (check_for_missing_values_spec ⟨[("a", [some 1, some 2])]⟩).2 (by decide)

/-- Claim C1: `are_assumptions_satisfied_linear` computes all five checks
(each is bound before any branching) and returns `True` exactly when all
five are satisfied, otherwise the reason string of the first failing check
in the fixed order linearity, independence, normality, equal variance,
perfect collinearity. -/
theorem are_assumptions_satisfied_linear_spec (lib : StatsLib)
    (model : Model) (features : Matrix) (labels : List ℚ)
    (p_value_thresh : ℚ) :
    (are_assumptions_satisfied_linear lib model features labels
        p_value_thresh = CheckResult.satisfied ↔
      ((linear_assumption model (add_constant features) labels
          p_value_thresh).1 = true ∧
       (independence_of_errors_assumption lib model (add_constant features)
          labels).1 = none ∧
       (normality_of_errors_assumption lib model (add_constant features)
          labels p_value_thresh).1 = "normal" ∧
       (equal_variance_assumption lib model (add_constant features) labels
          p_value_thresh).1 = "equal" ∧
       perfect_collinearity_assumption features = false)) ∧
    ((linear_assumption model (add_constant features) labels
        p_value_thresh).1 = false →
      are_assumptions_satisfied_linear lib model features labels
          p_value_thresh =
        CheckResult.failure ("Linearity assumption is not satisfied.")) ∧
    ((linear_assumption model (add_constant features) labels
        p_value_thresh).1 = true →
     (independence_of_errors_assumption lib model (add_constant features)
        labels).1 ≠ none →
      are_assumptions_satisfied_linear lib model features labels
          p_value_thresh =
        CheckResult.failure
          ("Independence of errors (no autocorrelation) assumption is not satisfied.")) ∧
    ((linear_assumption model (add_constant features) labels
        p_value_thresh).1 = true →
     (independence_of_errors_assumption lib model (add_constant features)
        labels).1 = none →
     (normality_of_errors_assumption lib model (add_constant features)
        labels p_value_thresh).1 ≠ "normal" →
      are_assumptions_satisfied_linear lib model features labels
          p_value_thresh =
        CheckResult.failure
          (("Normality of errors assumption is not satisfied. Distribution type: ")
            ++ (normality_of_errors_assumption lib model
                (add_constant features) labels p_value_thresh).1)) ∧
    ((linear_assumption model (add_constant features) labels
        p_value_thresh).1 = true →
     (independence_of_errors_assumption lib model (add_constant features)
        labels).1 = none →
     (normality_of_errors_assumption lib model (add_constant features)
        labels p_value_thresh).1 = "normal" →
     (equal_variance_assumption lib model (add_constant features) labels
        p_value_thresh).1 ≠ "equal" →
      are_assumptions_satisfied_linear lib model features labels
          p_value_thresh =
        CheckResult.failure
          (("Equal variance (homoscedasticity) assumption is not satisfied. Distribution type: ")
            ++ (equal_variance_assumption lib model (add_constant features)
                labels p_value_thresh).1)) ∧
    ((linear_assumption model (add_constant features) labels
        p_value_thresh).1 = true →
     (independence_of_errors_assumption lib model (add_constant features)
        labels).1 = none →
     (normality_of_errors_assumption lib model (add_constant features)
        labels p_value_thresh).1 = "normal" →
     (equal_variance_assumption lib model (add_constant features) labels
        p_value_thresh).1 = "equal" →
     perfect_collinearity_assumption features = true →
      are_assumptions_satisfied_linear lib model features labels
          p_value_thresh =
        CheckResult.failure
          ("Perfect collinearity assumption is not satisfied.")) := by
  simp only [are_assumptions_satisfied_linear]
  cases hL : (linear_assumption model (add_constant features) labels
      p_value_thresh).1 <;>
  cases hA : (independence_of_errors_assumption lib model
      (add_constant features) labels).1 <;>
  by_cases hN : (normality_of_errors_assumption lib model
      (add_constant features) labels p_value_thresh).1 = "normal" <;>
  by_cases hE : (equal_variance_assumption lib model (add_constant features)
      labels p_value_thresh).1 = "equal" <;>
  cases hP : perfect_collinearity_assumption features <;>
  simp_all

/-- Claim C1 witness: with every check passing, the overall result is
`True`. -/
theorem are_assumptions_satisfied_linear_spec_witness :
    are_assumptions_satisfied_linear passLib
        (mkModel ModelKind.linearRegression) [] [] (1 / 20) =
      CheckResult.satisfied :=
  (are_assumptions_satisfied_linear_spec passLib
      (mkModel ModelKind.linearRegression) [] [] (1 / 20)).1.mpr
    (by
      refine ⟨?_, ?_, ?_, ?_, ?_⟩ <;>
        simp [linear_assumption, independence_of_errors_assumption,
          normality_of_errors_assumption, equal_variance_assumption,
          perfect_collinearity_assumption, passLib, mkModel] <;>
        norm_num)

/-- Claim C7: the normality check classifies the residuals "normal" exactly
when the Anderson–Darling p-value is at least the threshold (and returns
that p-value); a non-"normal" classification, with linearity and
independence passing, makes the overall linear check fail with the
normality reason. -/
theorem normality_of_errors_spec (lib : StatsLib) (model : Model)
    (features : Matrix) (labels : List ℚ) (p_value_thresh : ℚ) :
    ((normality_of_errors_assumption lib model features labels
        p_value_thresh).1 = "normal" ↔
      p_value_thresh ≤
        lib.normal_ad_pvalue (residualsOf model features labels)) ∧
    ((normality_of_errors_assumption lib model features labels
        p_value_thresh).2 =
      lib.normal_ad_pvalue (residualsOf model features labels)) ∧
    ((linear_assumption model (add_constant features) labels
        p_value_thresh).1 = true →
     (independence_of_errors_assumption lib model (add_constant features)
        labels).1 = none →
     (normality_of_errors_assumption lib model (add_constant features)
        labels p_value_thresh).1 ≠ "normal" →
      are_assumptions_satisfied_linear lib model features labels
          p_value_thresh =
        CheckResult.failure
          (("Normality of errors assumption is not satisfied. Distribution type: ")
            ++ ("non-normal"))) := by
  refine ⟨?_, ?_, ?_⟩
  · simp only [normality_of_errors_assumption, ge_iff_le]
    split <;> simp_all
  · rfl
  · intro hL hA hN
    have hNN : (normality_of_errors_assumption lib model
        (add_constant features) labels p_value_thresh).1 = "non-normal" := by
      simp only [normality_of_errors_assumption] at hN ⊢
      split at hN <;> simp_all
    simp only [are_assumptions_satisfied_linear]
    simp [hL, hA, hN, hNN]

/-- Claim C7 witness: with an Anderson–Darling p-value of `0` and every
other check passing, the overall linear check fails with the normality
reason. -/
theorem normality_of_errors_spec_witness :
    are_assumptions_satisfied_linear failADLib
        (mkModel ModelKind.linearRegression) [] [] (1 / 20) =
      CheckResult.failure
        (("Normality of errors assumption is not satisfied. Distribution type: ")
          ++ ("non-normal")) :=
  (normality_of_errors_spec failADLib (mkModel ModelKind.linearRegression)
      [] [] (1 / 20)).2.2
    (by simp [linear_assumption, mkModel])
    (by simp [independence_of_errors_assumption, failADLib]; norm_num)
    (by simp [normality_of_errors_assumption, failADLib])

/-! ### Correlation facts for the collinearity check -/

theorem zipWith_self_eq_map {α β : Type} (f : α → α → β) :
    ∀ l : List α, List.zipWith f l l = l.map fun a => f a a
  | [] => rfl
  | a :: l => by
    simp only [List.zipWith_cons_cons, List.map_cons, zipWith_self_eq_map f l]

theorem varList_nonneg (x : Col) : 0 ≤ varList x := by
  rw [varList, covList, zipWith_self_eq_map]
  apply List.sum_nonneg
  intro a ha
  obtain ⟨b, _, rfl⟩ := List.mem_map.mp ha
  exact mul_self_nonneg b

/-- The boolean comparison pair used by `perfect_collinearity_assumption`
holds exactly when both columns have nonzero variance (i.e. the correlation
entry is defined) and the true Pearson correlation
`cov / (√(var x) · √(var y))` exceeds `t` in absolute value. -/
theorem corr_bool_iff (x y : Col) (t : ℚ) (ht : 0 < t) :
    (corr_gt x y t || corr_lt_neg x y t) = true ↔
      (varList x ≠ 0 ∧ varList y ≠ 0 ∧
        ((t : ℚ) : ℝ) < |((covList x y : ℚ) : ℝ) /
          (Real.sqrt ((varList x : ℚ) : ℝ) *
            Real.sqrt ((varList y : ℚ) : ℝ))|) := by
  by_cases hx : varList x = 0
  · simp [corr_gt, corr_lt_neg, hx]
  by_cases hy : varList y = 0
  · simp [corr_gt, corr_lt_neg, hy]
  have hvx : (0 : ℚ) < varList x := lt_of_le_of_ne (varList_nonneg x) (Ne.symm hx)
  have hvy : (0 : ℚ) < varList y := lt_of_le_of_ne (varList_nonneg y) (Ne.symm hy)
  have hvxR : (0 : ℝ) < ((varList x : ℚ) : ℝ) := by exact_mod_cast hvx
  have hvyR : (0 : ℝ) < ((varList y : ℚ) : ℝ) := by exact_mod_cast hvy
  have hsx : (0 : ℝ) < Real.sqrt ((varList x : ℚ) : ℝ) := Real.sqrt_pos.mpr hvxR
  have hsy : (0 : ℝ) < Real.sqrt ((varList y : ℚ) : ℝ) := Real.sqrt_pos.mpr hvyR
  have hQ : (corr_gt x y t || corr_lt_neg x y t) = true ↔
      t ^ 2 * (varList x * varList y) < covList x y ^ 2 := by
    simp only [corr_gt, corr_lt_neg, Bool.or_eq_true, Bool.and_eq_true,
      decide_eq_true_eq]
    constructor
    · rintro (⟨⟨⟨_, _⟩, _⟩, h⟩ | ⟨⟨⟨_, _⟩, _⟩, h⟩) <;> exact h
    · intro h
      rcases lt_trichotomy (covList x y) 0 with hc | hc | hc
      · exact Or.inr ⟨⟨⟨hx, hy⟩, hc⟩, h⟩
      · exfalso
        have h0 : (0 : ℚ) < t ^ 2 * (varList x * varList y) := by positivity
        rw [hc] at h
        norm_num at h
        linarith
      · exact Or.inl ⟨⟨⟨hx, hy⟩, hc⟩, h⟩
  have key : ((t : ℚ) : ℝ) < |((covList x y : ℚ) : ℝ) /
      (Real.sqrt ((varList x : ℚ) : ℝ) *
        Real.sqrt ((varList y : ℚ) : ℝ))| ↔
      t ^ 2 * (varList x * varList y) < covList x y ^ 2 := by
    rw [abs_div, abs_of_pos (mul_pos hsx hsy), lt_div_iff₀ (mul_pos hsx hsy)]
    rw [← pow_lt_pow_iff_left₀
      (mul_nonneg (by exact_mod_cast ht.le) (mul_pos hsx hsy).le)
      (abs_nonneg _) two_ne_zero]
    rw [mul_pow, mul_pow, Real.sq_sqrt hvxR.le, Real.sq_sqrt hvyR.le, sq_abs]
    exact_mod_cast Iff.rfl
  rw [hQ]
  simp only [hx, hy, ne_eq, not_false_iff, true_and]
  exact key.symm

/-- Claim C6 counterexample: `[[1, 1], [1, 1]]` is a feature matrix with two
exactly duplicated columns, yet `perfect_collinearity_assumption` returns
`false` — the correlation of a constant column is undefined (NaN in pandas),
so no off-diagonal entry exceeds the threshold. -/
theorem perfect_collinearity_duplicate_false :
    perfect_collinearity_assumption [[1, 1], [1, 1]] = false := by
  norm_num [perfect_collinearity_assumption, corr_gt, corr_lt_neg, varList,
    covList, centered, mean, List.range_succ]

/-- Claim C6 (amended): `perfect_collinearity_assumption` returns `true`
exactly when some off-diagonal defined entry of the pairwise correlation
matrix exceeds `0.999` in absolute value; in particular it returns `true`
for a matrix containing two exactly duplicated columns of nonzero
variance. -/
theorem perfect_collinearity_spec (features : Matrix) :
    (perfect_collinearity_assumption features = true ↔
      ∃ i j, i < features.length ∧ j < features.length ∧ i ≠ j ∧
        varList (features.getD i []) ≠ 0 ∧
        varList (features.getD j []) ≠ 0 ∧
        (((999 / 1000 : ℚ) : ℚ) : ℝ) <
          |((covList (features.getD i []) (features.getD j []) : ℚ) : ℝ) /
            (Real.sqrt ((varList (features.getD i []) : ℚ) : ℝ) *
              Real.sqrt ((varList (features.getD j []) : ℚ) : ℝ))|) ∧
    (∀ i j, i < features.length → j < features.length → i ≠ j →
      features.getD i [] = features.getD j [] →
      varList (features.getD i []) ≠ 0 →
      perfect_collinearity_assumption features = true) := by
  constructor
  · simp only [perfect_collinearity_assumption, List.any_eq_true,
      List.mem_range, Bool.and_eq_true, decide_eq_true_eq]
    constructor
    · rintro ⟨i, hi, j, hj, hij, hb⟩
      have h := (corr_bool_iff _ _ (999 / 1000) (by norm_num)).mp hb
      exact ⟨i, j, hi, hj, hij, h.1, h.2.1, h.2.2⟩
    · rintro ⟨i, j, hi, hj, hij, h1, h2, h3⟩
      exact ⟨i, hi, j, hj, hij,
        (corr_bool_iff _ _ (999 / 1000) (by norm_num)).mpr ⟨h1, h2, h3⟩⟩
  · intro i j hi hj hij hdup hvar
    simp only [perfect_collinearity_assumption, List.any_eq_true,
      List.mem_range, Bool.and_eq_true, decide_eq_true_eq, Bool.or_eq_true]
    refine ⟨i, hi, j, hj, hij, Or.inl ?_⟩
    rw [hdup]
    have hvar2 : varList (features.getD j []) ≠ 0 := hdup ▸ hvar
    have hv : 0 < varList (features.getD j []) :=
      lt_of_le_of_ne (varList_nonneg _) (Ne.symm hvar2)
    simp only [corr_gt, Bool.and_eq_true, decide_eq_true_eq]
    rw [show covList (features.getD j []) (features.getD j []) =
      varList (features.getD j []) from rfl]
    refine ⟨⟨⟨hvar2, hvar2⟩, hv⟩, ?_⟩
    nlinarith

/-- Claim C6 witness: a matrix with two duplicated non-constant columns is
reported collinear. -/
theorem perfect_collinearity_spec_witness :
    perfect_collinearity_assumption [[0, 1], [0, 1]] = true :=
  (perfect_collinearity_spec [[0, 1], [0, 1]]).2 0 1 (by norm_num)
    (by norm_num) (by norm_num) rfl
    (by norm_num [varList, covList, centered, mean])

end Helper
